import Mathlib

/-!
Verification of the factor-evaluator pipeline of
`rdagent/components/coder/factor_coder/CoSTEER/evaluators.py`.

The development shallowly embeds the deterministic control flow of the
evaluator classes.  Sub-evaluator outputs that come from external
collaborators (workspace execution, pandas computations on dataframes, the
chat-completion service) are supplied as explicit inputs, exactly at the
points where the Python code calls out to them; everything the Python code
itself computes (branching, thresholds, retry counters, prompt halving,
message selection, list concatenation) is reproduced in the definitions.
Floating-point metrics are modelled as rationals; a missing value (Python
`None`) is `Option.none`; a raised exception is `Except.error` carrying the
message of the exception.
-/

/-! ## FactorValueEvaluator (spec name: ValueAdjudicator), lines 412-498

`FactorValueEvaluator.evaluate` runs the atomic sub-checks and combines
their metrics into a tri-state decision (`some true` = Pass, `some false` =
Fail, `none` = Indeterminate).  The sub-checks execute workspaces and call
the completion service, so their `(feedback-string, metric)` outputs are
inputs of the embedding (`ValueChecks`); the aggregation and the decision
rule are translated from the source.  The result additionally records, as
an observable trace, whether the hard correlation check was invoked and the
correlation value actually used by the decision rule. -/

/-- Threshold `0.99` used throughout `FactorValueEvaluator.evaluate`. -/
def threshold : ℚ := 99/100

/-- Outputs of the sub-evaluators consumed by `FactorValueEvaluator.evaluate`
(lines 430-481).  `formatRes` is the boolean of
`FactorOutputFormatEvaluator`; the source discards it (line 446 binds it to
`_`), and the embedding keeps the field to make that observable.
`v2TooManyCols` is the version-2 guard `gen_df.shape[-1] > input_shape[-1]`
(line 437). -/
structure ValueChecks where
  version : Nat
  gtPresent : Bool
  singleColFb : String
  v2TooManyCols : Bool
  infRes : Bool
  infFb : String
  formatRes : Bool
  formatFb : String
  dailyRes : Bool
  dailyFb : String
  rowRes : ℚ
  rowFb : String
  indexRes : ℚ
  indexFb : String
  missingRes : Bool
  missingFb : String
  evrRes : ℚ
  evrFb : String
  corrRes : Bool
  corrFb : String

/-- Result of `FactorValueEvaluator.evaluate`: the list of conclusion
strings (joined with newlines at line 484), the tri-state decision of lines
486-498, plus a trace of the correlation gating of lines 474-481. -/
structure ValueVerdict where
  conclusions : List String
  decision : Option Bool
  corrInvoked : Bool
  highCorrUsed : Bool

/-- Message appended at line 438-440 when a version-2 task produces too many
columns. -/
def tooManyColsMsg : String :=
  "Output dataframe has more columns than input feature which is not acceptable in feature processing tasks. Please check the implementation to avoid generating too many columns. Consider this implementation as a failure."

/-- Message of line 480, emitted when the index similarity is at most 0.99
and the correlation comparison is skipped. -/
def corrSkipMsg : String :=
  "The source dataframe and the ground truth dataframe have different index. Give up comparing the values and correlation because it\x27s useless"

/-- Embedding of `FactorValueEvaluator.evaluate` (lines 413-498).  The
variable names follow the source: `row_result` is `None` unless ground
truth is present (line 428 re-initialises it to `None`); the name
`output_format_result` is overwritten at line 464 with the result of
`FactorMissingValuesEvaluator`, so the decision rule never sees the actual
output-format check; `high_correlation_result` is `False` unless ground
truth is present and the index similarity exceeds 0.99 (lines 474-479). -/
def factorValueEvaluate (c : ValueChecks) : ValueVerdict :=
  let head : List String :=
    if c.version = 1 then [c.singleColFb]
    else if c.version = 2 ∧ c.v2TooManyCols = true then [tooManyColsMsg]
    else []
  let dailyCheckResult : Option Bool := if c.version = 1 then some c.dailyRes else none
  let corrInvoked : Bool :=
    if c.gtPresent = true ∧ threshold < c.indexRes then true else false
  let highCorr : Bool :=
    if c.gtPresent = true ∧ threshold < c.indexRes then c.corrRes else false
  let gtConcl : List String :=
    if c.gtPresent = true then
      [c.rowFb, c.indexFb, c.missingFb, c.evrFb,
        if threshold < c.indexRes then c.corrFb else corrSkipMsg]
    else []
  let conclusions : List String :=
    head ++ [c.infFb, c.formatFb] ++ (if c.version = 1 then [c.dailyFb] else []) ++ gtConcl
  let rowResult : Option ℚ := if c.gtPresent = true then some c.rowRes else none
  let outputFormatResult : Option Bool := if c.gtPresent = true then some c.missingRes else none
  let evr : ℚ := if c.gtPresent = true then c.evrRes else 0
  let rowFail : Bool :=
    match rowResult with
    | some r => if r ≤ threshold then true else false
    | none => false
  let decision : Option Bool :=
    if (c.gtPresent = true ∧ threshold < evr) ∨ highCorr = true then some true
    else if rowFail = true ∨ outputFormatResult = some false
        ∨ dailyCheckResult = some false ∨ c.infRes = false then some false
    else none
  ⟨conclusions, decision, corrInvoked, highCorr⟩

/-! ## FactorEqualValueRatioEvaluator (spec name: EqualValueRatioCheck), lines 340-368

Dataframes are modelled as a column count plus a list of rows of optional
rationals (`none` models NaN).  The `try` block computes the element-wise
closeness matrix `gen_df.sub(gt_df).abs().lt(1e-6)`; the computation error
that triggers the bare `except` (the spec cites a shape mismatch as the
example) is modelled as a shape disagreement between the two tables.  A
metric of `none` models the NaN produced by `0 / 0` when the table has no
cells. -/

/-- Dataframe model: a column count and rows of cells, where a `none` cell
is a NaN entry. -/
structure DFrame where
  ncols : Nat
  rows : List (List (Option ℚ))
deriving DecidableEq

/-- Tolerance `1e-6` of line 353. -/
def tol : ℚ := 1/1000000

/-- One cell of `gen_df.sub(gt_df).abs().lt(1e-6)`: true when both cells are
numbers whose difference is below the tolerance; comparisons against NaN are
false. -/
def closeCell : Option ℚ → Option ℚ → Bool
  | some a, some b => if |a - b| < tol then true else false
  | _, _ => false

/-- Shape agreement between two dataframes; when it fails the `try` block of
lines 352-356 raises. -/
def sameShape (g h : DFrame) : Bool :=
  g.ncols == h.ncols && g.rows.length == h.rows.length &&
    (List.zip g.rows h.rows).all (fun p => p.1.length == p.2.length)

/-- The closeness matrix of line 353, or `none` when the computation raises. -/
def subAbsLt (g h : DFrame) : Option (List (List Bool)) :=
  if sameShape g h then
    some (List.zipWith (fun r s => List.zipWith closeCell r s) g.rows h.rows)
  else none

/-- Number of cells (`close_values.size`, line 356). -/
def cellCount (m : List (List Bool)) : Nat := (m.map List.length).sum

/-- Number of true cells (`result_int.sum().sum()`, line 355). -/
def trueCount (m : List (List Bool)) : Nat := (m.map (fun r => r.count true)).sum

/-- `close_values.all().iloc[0]` (line 359): all of the first column, or
`none` when there is no column (an `IndexError`). -/
def firstColumnAll (ncols : Nat) (m : List (List Bool)) : Option Bool :=
  if ncols = 0 then none else some (m.all (fun r => r.headD true))

/-- Message of lines 348-350 for an absent candidate table. -/
def evrNoneMsg : String := "The source dataframe is None. Please check the implementation."

/-- Message of line 361. -/
def evrEqualMsg : String := "All values in the dataframes are equal within the tolerance of 1e-6."

/-- Message of line 366. -/
def evrDiffMsg : String := "Some values differ by more than the tolerance of 1e-6. Check for rounding errors or differences in the calculation methods."

/-- The exception escaping the fallback path: `acc_rate` is only assigned
inside the `try` block (line 356), so the `return` at lines 360-368 raises
when the `except` branch of line 357 was taken. -/
def evrUnboundErrMsg : String :=
  "UnboundLocalError: local variable acc_rate referenced before assignment"

/-- The exception raised by `close_values.all().iloc[0]` on a table without
columns. -/
def evrIndexErrMsg : String := "IndexError: single positional indexer is out-of-bounds"

/-- Embedding of `FactorEqualValueRatioEvaluator.evaluate` (lines 341-368).
The returned metric is `some (-1)` for an absent candidate, the closeness
ratio otherwise, and `none` for the NaN produced by `0 / 0` on an empty
table.  When the `try` block raises, the source sets
`close_values = gen_df` and then returns the never-assigned `acc_rate`,
which raises `UnboundLocalError`; that propagated exception is the
`Except.error` of the last branch. -/
def factorEqualValueRatioEvaluate (genOpt : Option DFrame) (gt : DFrame) :
    Except String (String × Option ℚ) :=
  match genOpt with
  | none => .ok (evrNoneMsg, some (-1))
  | some gen =>
    match subAbsLt gen gt with
    | some close =>
      let size := cellCount close
      let acc : Option ℚ :=
        if size = 0 then none else some ((trueCount close : ℚ) / (size : ℚ))
      match firstColumnAll gen.ncols close with
      | none => .error evrIndexErrMsg
      | some b => .ok (if b = true then evrEqualMsg else evrDiffMsg, acc)
    | none =>
      if gen.ncols = 0 then .error evrIndexErrMsg else .error evrUnboundErrMsg

/-- All cells of a dataframe are numbers (no NaN); with the rational-valued
cell model this is the all-finite hypothesis of the spec. -/
def allFinite (g : DFrame) : Bool := g.rows.all (fun r => r.all Option.isSome)

/-- Total number of cells of a dataframe. -/
def dfCellCount (g : DFrame) : Nat := (g.rows.map List.length).sum

/-! ## FactorDatetimeDailyEvaluator (spec name: DailyFrequencyCheck), lines 240-267

The datetime level of the index is modelled as the list of its timestamps
in seconds (so one minute is 60).  The two guard branches (no `datetime`
level, unparseable level) are controlled by explicit flags; the frequency
test of lines 261-266 is translated from the source: the sequence of
consecutive differences is formed (`diff().dropna()`), de-duplicated
(`unique()`), and the check fails iff a one-minute delta is a member. -/

/-- `pd.to_datetime(...).to_series().diff().dropna()`: the consecutive
differences of the timestamp list. -/
def consecutiveDiffs (ts : List Int) : List Int :=
  List.zipWith (fun a b => a - b) (ts.drop 1) ts

/-- Message of line 251. -/
def dtNoIndexMsg : String := "The source dataframe does not have a datetime index. Please check the implementation."

/-- Static part of the message of lines 256-259 (the source appends the
dataframe head). -/
def dtBadFormatMsg : String := "The source dataframe has a datetime index but it is not in the correct format (maybe a regular string or other objects). Please check the implementation."

/-- Message of line 264. -/
def dtNotDailyMsg : String := "The generated dataframe is not daily. The implementation is definitely wrong. Please check the implementation."

/-- Message of line 267. -/
def dtDailyMsg : String := "The generated dataframe is daily."

/-- Embedding of `FactorDatetimeDailyEvaluator.evaluate` (lines 241-267)
after the table has been obtained: `hasDatetimeLevel` is the test of line
250, `parseable` the `pd.to_datetime` try of lines 253-259, and `ts` the
timestamps of the datetime level, in seconds. -/
def factorDatetimeDailyEvaluate (hasDatetimeLevel : Bool) (parseable : Bool)
    (ts : List Int) : String × Bool :=
  if hasDatetimeLevel = false then (dtNoIndexMsg, false)
  else if parseable = false then (dtBadFormatMsg, false)
  else if (60 : Int) ∈ (consecutiveDiffs ts).dedup then (dtNotDailyMsg, false)
  else (dtDailyMsg, true)

/-- Formalisation of the claim wording, for comparison with the source: the
minimal time delta between consecutive distinct timestamps (zero deltas
between equal neighbours are not deltas between distinct timestamps). -/
def claimMinimalDelta (ts : List Int) : Option Int :=
  ((consecutiveDiffs ts).filter (fun d => d ≠ 0)).min?

/-! ## Retry loops of FactorOutputFormatEvaluator (lines 208-237) and FactorFinalDecisionEvaluator (lines 551-582)

A completion-service response is either non-JSON (raising
`json.JSONDecodeError`), JSON missing a required key (raising `KeyError`),
or JSON carrying both required keys.  The response to the `attempts`-th
call is `responses attempts`.  Each embedding returns the outcome together
with the log of calls it made; a call record holds the cache flag
(`APIBackend()` on the first attempt, `APIBackend(use_chat_cache=False)`
afterwards) and the seed passed (only `FactorFinalDecisionEvaluator` passes
`seed=attempts`, line 564). -/

/-- One completion-service response, as seen by the retry loops. -/
inductive ApiResp where
  | nonJson : ApiResp
  | jsonMissing : ApiResp
  | jsonOk : String → String → ApiResp
deriving DecidableEq

/-- Record of one completion call: the cache flag of the backend used and
the seed argument, if any. -/
structure CallRec where
  useCache : Bool
  seed : Option Nat
deriving DecidableEq

/-- Python `str(x).lower() in ["true", "1"]` (lines 220 and 570). -/
def pyTruthStr (s : String) : Bool := s.toLower == "true" || s.toLower == "1"

/-- Message of the `ValueError` raised at lines 228 and 574 on a non-JSON
response. -/
def jsonDecodeErrMsg : String := "Failed to decode JSON response from API."

/-- Message of the `KeyError` raised at lines 233-235 after exhausting the
retries. -/
def formatKeyErrMsg : String :=
  "Response from API is missing \x27output_format_decision\x27 or \x27output_format_feedback\x27 key after multiple attempts."

/-- Message of the `KeyError` raised at lines 578-580 after exhausting the
retries. -/
def finalKeyErrMsg : String :=
  "Response from API is missing \x27final_decision\x27 or \x27final_feedback\x27 key after multiple attempts."

/-- Fallback return of line 237, reachable only if the `while` guard fails. -/
def formatExhaustMsg : String := "Failed to evaluate output format after multiple attempts."

/-- The `while attempts < max_attempts` loop of
`FactorOutputFormatEvaluator.evaluate` (lines 209-237), with
`max_attempts = 3`.  `fuel` is `max_attempts - attempts`, so the base case
is the fall-through return of line 237. -/
def formatJudgeGo (responses : Nat → ApiResp) : Nat → Nat →
    Except String (String × Bool) × List CallRec
  | _, 0 => (.ok (formatExhaustMsg, false), [])
  | attempts, fuel+1 =>
    let call : CallRec := ⟨attempts == 0, none⟩
    match responses attempts with
    | .nonJson => (.error jsonDecodeErrMsg, [call])
    | .jsonMissing =>
      if attempts + 1 ≥ 3 then (.error formatKeyErrMsg, [call])
      else
        let r := formatJudgeGo responses (attempts + 1) fuel
        (r.1, call :: r.2)
    | .jsonOk d f => (.ok (f, pyTruthStr d), [call])

/-- Embedding of the retry portion of `FactorOutputFormatEvaluator.evaluate`
(lines 208-237): result of the loop plus the log of completion calls. -/
def formatJudgeEvaluate (responses : Nat → ApiResp) :
    Except String (String × Bool) × List CallRec :=
  formatJudgeGo responses 0 3

/-- The `while attempts < max_attempts` loop of
`FactorFinalDecisionEvaluator.evaluate` (lines 552-582), with
`max_attempts = 3` and `seed=attempts` on every call.  The base case is the
fall-through `return None, None` of line 582. -/
def finalDecisionGo (responses : Nat → ApiResp) : Nat → Nat →
    Except String (Option Bool × Option String) × List CallRec
  | _, 0 => (.ok (none, none), [])
  | attempts, fuel+1 =>
    let call : CallRec := ⟨attempts == 0, some attempts⟩
    match responses attempts with
    | .nonJson => (.error jsonDecodeErrMsg, [call])
    | .jsonMissing =>
      if attempts + 1 ≥ 3 then (.error finalKeyErrMsg, [call])
      else
        let r := finalDecisionGo responses (attempts + 1) fuel
        (r.1, call :: r.2)
    | .jsonOk d f => (.ok (some (pyTruthStr d), some f), [call])

/-- Embedding of the retry portion of
`FactorFinalDecisionEvaluator.evaluate` (lines 551-582). -/
def finalDecisionEvaluate (responses : Nat → ApiResp) :
    Except String (Option Bool × Option String) × List CallRec :=
  finalDecisionGo responses 0 3

/-- Responses that always miss a required key, used to exercise the
exhaustion branch. -/
def allMissingResp : Nat → ApiResp := fun _ => .jsonMissing

/-! ## Prompt-halving loop of FactorCodeEvaluator (lines 102-126) and FactorFinalDecisionEvaluator (lines 521-549)

Both classes run the identical `for _ in range(10)` loop: render the user
prompt from the current execution feedback; if the token count exceeds the
limit, replace the feedback by its second half
(`execution_feedback_to_render[len(...) // 2:]`) and iterate, else break.
The completion call after the loop uses the last rendered prompt.  The
execution-feedback text is modelled as its list of characters (Python
slicing is `List.drop`); the prompt rendering and the token counter are the
external jinja template and `build_messages_and_calculate_token`, supplied
as function inputs. -/

/-- `execution_feedback_to_render[len(execution_feedback_to_render) // 2:]`
(lines 124 and 547). -/
def halveFeedback (fb : List Char) : List Char := fb.drop (fb.length / 2)

/-- Iterated halving. -/
def halveIter : Nat → List Char → List Char
  | 0, fb => fb
  | n+1, fb => halveIter n (halveFeedback fb)

/-- The `for _ in range(10)` loop with `k` iterations left: returns the
prompt the completion call will use and the number of halvings performed.
When the final iteration still exceeds the budget, the feedback is halved
once more but the loop ends, so the call keeps the prompt rendered at the
start of that iteration. -/
def promptShrinkGo (tok : String → Nat) (limit : Nat) (render : List Char → String) :
    Nat → List Char → String × Nat
  | 0, fb => (render fb, 0)
  | k+1, fb =>
    let up := render fb
    if tok up ≤ limit then (up, 0)
    else if k = 0 then (up, 1)
    else
      let r := promptShrinkGo tok limit render k (halveFeedback fb)
      (r.1, r.2 + 1)

/-- Embedding of the halving loops of lines 102-126 and 523-549: ten
iterations, as in `range(10)`. -/
def promptShrink (tok : String → Nat) (limit : Nat) (render : List Char → String)
    (fb : List Char) : String × Nat :=
  promptShrinkGo tok limit render 10 fb

/-- Concrete token counter for exercising the loop. -/
def zeroTok : String → Nat := fun _ => 0

/-- Concrete prompt renderer for exercising the loop. -/
def emptyRender : List Char → String := fun _ => ""

/-! ## FactorEvaluatorForCoder (spec name: SingleEvaluator), lines 627-727

`FactorEvaluatorForCoder.evaluate` is the per-candidate state machine.  Its
collaborators are inputs: the queried knowledge (success dictionary and
failed set), the workspace execution output, and the three sub-evaluators
(value, code, final decision), whose outputs are oracle fields consumed at
exactly the points the source calls them.  The result carries the feedback
record plus a trace of which stages ran: `executed` is the
`implementation.execute()` of line 671, `valueEvalRan` the
`self.value_evaluator.evaluate` of line 689, `codeCriticRan` the
`self.code_evaluator.evaluate` calls of lines 701 and 711, and
`finalAdjRan` the `self.final_decision_evaluator.evaluate` of line 721.
Every completion-service call of the pipeline happens inside one of those
stages. -/

/-- The feedback record of lines 585-604, with the `__init__` defaults
(`None` fields, `value_generated_flag=False`). -/
structure FactorSingleFeedback where
  execution_feedback : Option String
  value_generated_flag : Bool
  code_feedback : Option String
  factor_value_feedback : Option String
  final_decision : Option Bool
  final_feedback : Option String
  final_decision_based_on_gt : Option Bool
deriving DecidableEq

/-- A wholly default record, as produced by `FactorSingleFeedback()`. -/
def blankFeedback : FactorSingleFeedback := ⟨none, false, none, none, none, none, none⟩

/-- The queried knowledge: keys of `success_task_to_knowledge_dict` (with
the stored feedback as a lookup function) and the `failed_task_info_set`. -/
structure QueriedK where
  successKeys : List String
  successFb : String → FactorSingleFeedback
  failedSet : List String

/-- Inputs of `FactorEvaluatorForCoder.evaluate`: presence of the
implementation workspace, the task information string, the optional queried
knowledge, the raw execution feedback (after the numeric-run regex of line
674), whether a table was generated, and the oracle outputs of the three
sub-evaluators. -/
structure CoderEvalInputs where
  implPresent : Bool
  taskInfo : String
  knowledge : Option QueriedK
  execFeedbackText : String
  genDf : Bool
  valueFb : String
  valueDecision : Option Bool
  codeFb : String
  finalDecision : Option Bool
  finalFb : Option String
  gtPresent : Bool

/-- Result of `FactorEvaluatorForCoder.evaluate` plus the stage trace. -/
structure CoderEvalResult where
  feedback : Option FactorSingleFeedback
  executed : Bool
  valueEvalRan : Bool
  codeCriticRan : Bool
  finalAdjRan : Bool
deriving DecidableEq

/-- Line 657. -/
def repeatedFailExecMsg : String := "This task has failed too many times, skip implementation."

/-- Line 659. -/
def repeatedFailCodeMsg : String := "This task has failed too many times, skip code evaluation."

/-- Line 660. -/
def repeatedFailValueMsg : String := "This task has failed too many times, skip value evaluation."

/-- Line 662. -/
def repeatedFailFinalMsg : String := "This task has failed too many times, skip final decision evaluation."

/-- Line 681. -/
def noValueMsg : String := "No factor value generated, skip value evaluation."

/-- Line 697. -/
def passCodeMsg : String := "Final decision is True and there are no code critics."

/-- Line 699. -/
def passFinalMsg : String := "Value evaluation passed, skip final decision evaluation."

/-- Line 709. -/
def failFinalMsg : String := "Value evaluation failed, skip final decision evaluation."

/-- The canned all-failing feedback of lines 656-664. -/
def repeatedFailFeedback : FactorSingleFeedback :=
  ⟨some repeatedFailExecMsg, false, some repeatedFailCodeMsg, some repeatedFailValueMsg,
    some false, some repeatedFailFinalMsg, some false⟩

/-- Lines 675-677: keep only the lines whose lower-cased text does not
contain the substring `warning`. -/
def filterWarningLines (s : String) : String :=
  String.intercalate "\n"
    ((s.splitOn "\n").filter (fun line => ((line.toLower).splitOn "warning").length = 1))

/-- The guard `queried_knowledge is not None and target_task_information in
queried_knowledge.success_task_to_knowledge_dict` of lines 650-653. -/
def coderKnowledgeSuccessHit (inp : CoderEvalInputs) : Bool :=
  match inp.knowledge with
  | some qk => qk.successKeys.contains inp.taskInfo
  | none => false

/-- The guard `queried_knowledge is not None and target_task_information in
queried_knowledge.failed_task_info_set` of line 655. -/
def coderKnowledgeFailedHit (inp : CoderEvalInputs) : Bool :=
  match inp.knowledge with
  | some qk => qk.failedSet.contains inp.taskInfo
  | none => false

/-- The main evaluation path of lines 665-727: execute the workspace,
filter the execution feedback, run the value evaluator when a table was
produced, and dispatch on the tri-state decision. -/
def coderMainPath (inp : CoderEvalInputs) : CoderEvalResult :=
  let execFb := filterWarningLines inp.execFeedbackText
  if inp.genDf = false then
    ⟨some ⟨some execFb, false, some inp.codeFb, some noValueMsg,
        inp.finalDecision, inp.finalFb, some inp.gtPresent⟩,
      true, false, true, true⟩
  else
    match inp.valueDecision with
    | some true =>
      ⟨some ⟨some execFb, true, some passCodeMsg, some inp.valueFb,
          some true, some passFinalMsg, some inp.gtPresent⟩,
        true, true, false, false⟩
    | some false =>
      ⟨some ⟨some execFb, true, some inp.codeFb, some inp.valueFb,
          some false, some failFinalMsg, some inp.gtPresent⟩,
        true, true, true, false⟩
    | none =>
      ⟨some ⟨some execFb, true, some inp.codeFb, some inp.valueFb,
          inp.finalDecision, inp.finalFb, some inp.gtPresent⟩,
        true, true, true, true⟩

/-- Embedding of `FactorEvaluatorForCoder.evaluate` (lines 638-727): the
`implementation is None` guard of line 646, then the knowledge lookups of
lines 650-664, then the main path. -/
def factorEvaluatorForCoderEvaluate (inp : CoderEvalInputs) : CoderEvalResult :=
  if inp.implPresent = false then ⟨none, false, false, false, false⟩
  else
    match inp.knowledge with
    | some qk =>
      if qk.successKeys.contains inp.taskInfo then
        ⟨some (qk.successFb inp.taskInfo), false, false, false, false⟩
      else if qk.failedSet.contains inp.taskInfo then
        ⟨some repeatedFailFeedback, false, false, false, false⟩
      else coderMainPath inp
    | none => coderMainPath inp

/-! ## Concrete inputs used by counterexamples and witnesses -/

/-- Sub-check outputs with ground truth present, an equal-value ratio of
0.999, and a failing infinite-value check (a table where 1 cell in 1000 is
infinite and the rest match the ground truth realises exactly this). -/
def c1ctr : ValueChecks :=
  { version := 1, gtPresent := true, singleColFb := "", v2TooManyCols := false,
    infRes := false, infFb := "", formatRes := true, formatFb := "",
    dailyRes := true, dailyFb := "", rowRes := 1, rowFb := "",
    indexRes := 1, indexFb := "", missingRes := true, missingFb := "",
    evrRes := 999/1000, evrFb := "", corrRes := false, corrFb := "" }

/-- Sub-check outputs with ground truth present and every check clean. -/
def c1w : ValueChecks :=
  { version := 1, gtPresent := true, singleColFb := "", v2TooManyCols := false,
    infRes := true, infFb := "", formatRes := true, formatFb := "",
    dailyRes := true, dailyFb := "", rowRes := 1, rowFb := "",
    indexRes := 1, indexFb := "", missingRes := true, missingFb := "",
    evrRes := 1, evrFb := "", corrRes := true, corrFb := "" }

/-- Sub-check outputs with ground truth present and an index similarity of
one half. -/
def c2w : ValueChecks :=
  { version := 1, gtPresent := true, singleColFb := "", v2TooManyCols := false,
    infRes := true, infFb := "", formatRes := true, formatFb := "",
    dailyRes := true, dailyFb := "", rowRes := 1, rowFb := "",
    indexRes := 1/2, indexFb := "", missingRes := true, missingFb := "",
    evrRes := 0, evrFb := "", corrRes := true, corrFb := "" }

/-- Sub-check outputs with no ground truth. -/
def c10w : ValueChecks :=
  { version := 1, gtPresent := false, singleColFb := "", v2TooManyCols := false,
    infRes := true, infFb := "", formatRes := true, formatFb := "",
    dailyRes := true, dailyFb := "", rowRes := 0, rowFb := "",
    indexRes := 0, indexFb := "", missingRes := true, missingFb := "",
    evrRes := 1, evrFb := "", corrRes := true, corrFb := "" }

/-- Candidate table for the equal-value-ratio fallback: one row of one cell. -/
def c4gen : DFrame := ⟨1, [[some 0]]⟩

/-- Ground-truth table whose shape disagrees with `c4gen`, so the `try`
block raises (the pandas computation error of the claim). -/
def c4gt : DFrame := ⟨1, [[some 0], [some 0]]⟩

/-- An all-finite table with one column and no rows. -/
def dfEmptyOneCol : DFrame := ⟨1, []⟩

/-- A one-cell table holding the number 0. -/
def dfOneCell : DFrame := ⟨1, [[some 0]]⟩

/-- Coder-evaluator inputs with no queried knowledge, a generated table and
a passing value verdict. -/
def inp5 : CoderEvalInputs :=
  { implPresent := true, taskInfo := "t", knowledge := none,
    execFeedbackText := "", genDf := true, valueFb := "value feedback",
    valueDecision := some true, codeFb := "code feedback",
    finalDecision := some false, finalFb := some "final feedback",
    gtPresent := false }

/-- Queried knowledge marking task `t` as repeatedly failed. -/
def failedOnlyKnowledge : QueriedK :=
  { successKeys := [], successFb := fun _ => blankFeedback, failedSet := ["t"] }

/-- Coder-evaluator inputs whose task is marked as repeatedly failed. -/
def inp6 : CoderEvalInputs :=
  { implPresent := true, taskInfo := "t", knowledge := some failedOnlyKnowledge,
    execFeedbackText := "", genDf := true, valueFb := "",
    valueDecision := none, codeFb := "", finalDecision := none, finalFb := none,
    gtPresent := false }

/-! ## Theorems about the value adjudicator -/

/-- Claim C1, counterexample: with ground truth present, an equal-value
ratio above 0.99 and a failing infinite-value check, the verdict is Pass
(`some true`), not Fail — the Pass branch of line 486 is tested before the
Fail branch of lines 488-494, so Fail does not take precedence. -/
theorem valueAdjudicator_pass_despite_inf_counterexample :
    c1ctr.gtPresent = true ∧ threshold < c1ctr.evrRes ∧ c1ctr.infRes = false ∧
      (factorValueEvaluate c1ctr).decision = some true := by
  refine ⟨rfl, by norm_num [c1ctr, threshold], rfl, ?_⟩
  norm_num [factorValueEvaluate, c1ctr, threshold]

/-- Claim C1 (amended): whenever ground truth is present and the
equal-value-ratio metric exceeds 0.99, the tri-state verdict is Pass
regardless of every other metric — including a failing InfCheck or
structural format check, because the Pass condition is evaluated first and
takes precedence over the Fail conditions. -/
theorem valueAdjudicator_pass_precedence (c : ValueChecks)
    (hgt : c.gtPresent = true) (hevr : threshold < c.evrRes) :
    (factorValueEvaluate c).decision = some true := by
  simp [factorValueEvaluate, hgt, hevr]

/-- Witness for `valueAdjudicator_pass_precedence` at a concrete input. -/
theorem valueAdjudicator_pass_precedence_witness :
    c1w.gtPresent = true ∧ threshold < c1w.evrRes ∧
      (factorValueEvaluate c1w).decision = some true :=
  ⟨rfl, by norm_num [c1w, threshold],
    valueAdjudicator_pass_precedence c1w rfl (by norm_num [c1w, threshold])⟩

/-- Claim C2: with ground truth present, the hard correlation check is
invoked iff the index-similarity metric exceeds 0.99; otherwise the
correlation used by the decision rule is the failing `false` and the
conclusion list contains the note that the comparison was given up because
the indices diverge (lines 474-481). -/
theorem valueAdjudicator_correlation_gating (c : ValueChecks)
    (hgt : c.gtPresent = true) :
    ((factorValueEvaluate c).corrInvoked = true ↔ threshold < c.indexRes) ∧
      (c.indexRes ≤ threshold →
        (factorValueEvaluate c).highCorrUsed = false ∧
          corrSkipMsg ∈ (factorValueEvaluate c).conclusions) := by
  constructor
  · by_cases h : threshold < c.indexRes <;> simp [factorValueEvaluate, hgt, h]
  · intro hle
    have hnot : ¬ threshold < c.indexRes := not_lt.mpr hle
    constructor
    · simp [factorValueEvaluate, hgt, hnot]
    · simp [factorValueEvaluate, hgt, hnot]

/-- Witness for `valueAdjudicator_correlation_gating` at a concrete input. -/
theorem valueAdjudicator_correlation_gating_witness :
    (factorValueEvaluate c2w).highCorrUsed = false ∧
      corrSkipMsg ∈ (factorValueEvaluate c2w).conclusions :=
  (valueAdjudicator_correlation_gating c2w rfl).2 (by norm_num [c2w, threshold])

/-- Claim C10: when no ground truth is present the verdict is never Pass:
both Pass conditions (equal-value ratio and hard correlation) are only
established inside the `gt_implementation is not None` block. -/
theorem valueAdjudicator_no_gt_never_pass (c : ValueChecks)
    (hgt : c.gtPresent = false) :
    (factorValueEvaluate c).decision ≠ some true := by
  simp only [factorValueEvaluate, hgt]
  simp

/-- Witness for `valueAdjudicator_no_gt_never_pass` at a concrete input. -/
theorem valueAdjudicator_no_gt_never_pass_witness :
    (factorValueEvaluate c10w).decision ≠ some true :=
  valueAdjudicator_no_gt_never_pass c10w rfl

/-! ## Theorems about the equal-value-ratio check -/

/-- Claim C4: evaluating the check at a pair of tables whose near-equality
computation raises shows the exception escaping to the caller: the bare
`except` of line 357 assigns `close_values = gen_df` but `acc_rate` is only
assigned inside the `try`, so the `return` of lines 360-368 raises
`UnboundLocalError` instead of returning a `CheckResult`. -/
theorem equalValueRatio_fallback_raises :
    factorEqualValueRatioEvaluate (some c4gen) c4gt = .error evrUnboundErrMsg := rfl

/-- Every shape agrees with itself. -/
theorem sameShape_self (g : DFrame) : sameShape g g = true := by
  simp only [sameShape, Bool.and_eq_true, beq_self_eq_true, true_and]
  induction g.rows with
  | nil => rfl
  | cons r rs ih => simpa using ih

/-- Self-comparison of a numeric cell is within the tolerance. -/
theorem closeCell_self (a : ℚ) : closeCell (some a) (some a) = true := by
  have h : (0:ℚ) < tol := by norm_num [tol]
  simp [closeCell, h]

/-- Self-comparison of an all-numeric row gives an all-true row. -/
theorem zipWith_closeCell_self (r : List (Option ℚ)) (h : r.all Option.isSome = true) :
    List.zipWith closeCell r r = List.replicate r.length true := by
  induction r with
  | nil => rfl
  | cons a as ih =>
    simp only [List.all_cons, Bool.and_eq_true] at h
    obtain ⟨q, hq⟩ := Option.isSome_iff_exists.mp h.1
    subst hq
    rw [List.zipWith_cons_cons, List.length_cons, List.replicate_succ,
      closeCell_self, ih h.2]

/-- Self-comparison of an all-numeric matrix gives an all-true matrix. -/
theorem close_rows_self (rows : List (List (Option ℚ)))
    (h : rows.all (fun r => r.all Option.isSome) = true) :
    List.zipWith (fun r s => List.zipWith closeCell r s) rows rows
      = rows.map (fun r => List.replicate r.length true) := by
  induction rows with
  | nil => rfl
  | cons r rs ih =>
    simp only [List.all_cons, Bool.and_eq_true] at h
    rw [List.zipWith_cons_cons, List.map_cons, zipWith_closeCell_self r h.1, ih h.2]

/-- The all-true matrix has as many true cells as cells. -/
theorem trueCount_all_true (rows : List (List (Option ℚ))) :
    trueCount (rows.map (fun r => List.replicate r.length true))
      = (rows.map List.length).sum := by
  simp [trueCount, List.map_map, Function.comp_def]

/-- The all-true matrix has the cell count of the original matrix. -/
theorem cellCount_all_true (rows : List (List (Option ℚ))) :
    cellCount (rows.map (fun r => List.replicate r.length true))
      = (rows.map List.length).sum := by
  simp [cellCount, List.map_map, Function.comp_def]

/-- Every row of the all-true matrix starts with true (or is empty). -/
theorem all_headD_all_true (rows : List (List (Option ℚ))) :
    (rows.map (fun r => List.replicate r.length true)).all (fun r => r.headD true) = true := by
  rw [List.all_eq_true]
  intro x hx
  obtain ⟨r, _, hr⟩ := List.mem_map.mp hx
  subst hr
  cases r <;> simp [List.replicate_succ]

/-- Claim C9 (amended): comparing an all-finite table with at least one
cell against itself yields metric exactly 1. -/
theorem equalValueRatio_self_comparison (A : DFrame)
    (hfin : allFinite A = true) (hc : 0 < A.ncols) (hs : 0 < dfCellCount A) :
    factorEqualValueRatioEvaluate (some A) A = .ok (evrEqualMsg, some 1) := by
  have hshape : sameShape A A = true := sameShape_self A
  have hclose := close_rows_self A.rows hfin
  have hsz : (A.rows.map List.length).sum ≠ 0 := Nat.pos_iff_ne_zero.mp hs
  have hncols : ¬ A.ncols = 0 := Nat.pos_iff_ne_zero.mp hc
  simp only [factorEqualValueRatioEvaluate, subAbsLt, hshape, if_true, hclose,
    cellCount_all_true, trueCount_all_true, firstColumnAll, hncols, if_false,
    all_headD_all_true, hsz, ite_false, if_neg hsz]
  rw [div_self (by exact_mod_cast hsz)]

/-- Witness for `equalValueRatio_self_comparison` at a one-cell table. -/
theorem equalValueRatio_self_comparison_witness :
    factorEqualValueRatioEvaluate (some dfOneCell) dfOneCell = .ok (evrEqualMsg, some 1) :=
  equalValueRatio_self_comparison dfOneCell rfl (by norm_num [dfOneCell]) (by
    norm_num [dfOneCell, dfCellCount])

/-- Claim C9, counterexample: an all-finite table with a column but no rows
is self-compared to a NaN metric (`0 / 0` at line 356, modelled `none`),
not to the metric 1. -/
theorem equalValueRatio_empty_table_counterexample :
    allFinite dfEmptyOneCol = true ∧
      factorEqualValueRatioEvaluate (some dfEmptyOneCol) dfEmptyOneCol
        = .ok (evrEqualMsg, none) ∧ (none : Option ℚ) ≠ some 1 := by
  refine ⟨rfl, rfl, by decide⟩

/-! ## Theorems about the daily-frequency check -/

/-- Claim C7, counterexample: for timestamps 0s, 30s, 90s the deltas are
{30s, 60s}; the minimal delta is 30s, not one minute, yet the check fails,
because the source tests membership of the one-minute delta (line 262), not
minimality. -/
theorem dailyCheck_minimal_delta_counterexample :
    ¬ (((factorDatetimeDailyEvaluate true true [0, 30, 90]).2 = false) ↔
        claimMinimalDelta [0, 30, 90] = some 60) := by
  decide

/-- Claim C7 (amended): for a parseable datetime level, the check fails iff
a one-minute delta occurs among the consecutive timestamp differences. -/
theorem dailyCheck_membership_rule (ts : List Int) :
    ((factorDatetimeDailyEvaluate true true ts).2 = false) ↔
      (60 : Int) ∈ consecutiveDiffs ts := by
  by_cases h : (60 : Int) ∈ (consecutiveDiffs ts).dedup
  · simp only [factorDatetimeDailyEvaluate, h, if_true]
    simpa using List.mem_dedup.mp h
  · rw [List.mem_dedup] at h
    simp [factorDatetimeDailyEvaluate, h]

/-! ## Theorems about the retry loops -/

/-- Claim C3: for both the format judge and the final-decision evaluator,
the retry loops make at most 3 completion calls; when the first three
responses all miss a required key the loops raise the key error naming the
missing keys after exactly 3 calls; the cache is used only on the first
call and disabled on every retry; and a non-JSON response raises the JSON
decode error immediately, after a single call. -/
theorem retry_bounds_and_cache_busting (responses : Nat → ApiResp) :
    (formatJudgeEvaluate responses).2.length ≤ 3 ∧
    (finalDecisionEvaluate responses).2.length ≤ 3 ∧
    ((formatJudgeEvaluate responses).2.map CallRec.useCache).isPrefixOf
      [true, false, false] = true ∧
    ((finalDecisionEvaluate responses).2.map CallRec.useCache).isPrefixOf
      [true, false, false] = true ∧
    ((responses 0 = .jsonMissing ∧ responses 1 = .jsonMissing ∧
        responses 2 = .jsonMissing) →
      (formatJudgeEvaluate responses).1 = .error formatKeyErrMsg ∧
      (formatJudgeEvaluate responses).2.length = 3 ∧
      (finalDecisionEvaluate responses).1 = .error finalKeyErrMsg ∧
      (finalDecisionEvaluate responses).2.length = 3) ∧
    (responses 0 = .nonJson →
      (formatJudgeEvaluate responses).1 = .error jsonDecodeErrMsg ∧
      (formatJudgeEvaluate responses).2.length = 1 ∧
      (finalDecisionEvaluate responses).1 = .error jsonDecodeErrMsg ∧
      (finalDecisionEvaluate responses).2.length = 1) := by
  cases h0 : responses 0 with
  | nonJson =>
    simp [formatJudgeEvaluate, finalDecisionEvaluate, formatJudgeGo, finalDecisionGo, h0]
  | jsonOk d f =>
    simp [formatJudgeEvaluate, finalDecisionEvaluate, formatJudgeGo, finalDecisionGo, h0]
  | jsonMissing =>
    cases h1 : responses 1 with
    | nonJson =>
      simp [formatJudgeEvaluate, finalDecisionEvaluate, formatJudgeGo, finalDecisionGo,
        h0, h1]
    | jsonOk d f =>
      simp [formatJudgeEvaluate, finalDecisionEvaluate, formatJudgeGo, finalDecisionGo,
        h0, h1]
    | jsonMissing =>
      cases h2 : responses 2 with
      | nonJson =>
        simp [formatJudgeEvaluate, finalDecisionEvaluate, formatJudgeGo, finalDecisionGo,
          h0, h1, h2]
      | jsonOk d f =>
        simp [formatJudgeEvaluate, finalDecisionEvaluate, formatJudgeGo, finalDecisionGo,
          h0, h1, h2]
      | jsonMissing =>
        simp [formatJudgeEvaluate, finalDecisionEvaluate, formatJudgeGo, finalDecisionGo,
          h0, h1, h2]

/-- Witness for `retry_bounds_and_cache_busting` at the all-missing
responses: the exhaustion branch is reached after exactly 3 calls. -/
theorem retry_bounds_and_cache_busting_witness :
    (formatJudgeEvaluate allMissingResp).1 = .error formatKeyErrMsg ∧
      (formatJudgeEvaluate allMissingResp).2.length = 3 ∧
      (finalDecisionEvaluate allMissingResp).1 = .error finalKeyErrMsg ∧
      (finalDecisionEvaluate allMissingResp).2.length = 3 :=
  (retry_bounds_and_cache_busting allMissingResp).2.2.2.2.1 ⟨rfl, rfl, rfl⟩

/-! ## Theorems about the prompt-halving loop -/

/-- Unfolding of one halving step. -/
theorem halveIter_succ (n : Nat) (fb : List Char) :
    halveIter (n+1) fb = halveIter n (halveFeedback fb) := rfl

/-- Iterated halving keeps a suffix (the tail) of the original feedback. -/
theorem halveIter_suffix (n : Nat) (fb : List Char) : halveIter n fb <:+ fb := by
  induction n generalizing fb with
  | zero => exact List.suffix_refl fb
  | succ m ih => exact (ih (halveFeedback fb)).trans (List.drop_suffix _ fb)

/-- Invariant of the halving loop with `k` iterations left: at most `k`
halvings happen; the prompt used by the call is rendered from the feedback
after `min h (k-1)` halvings (the final halving of an exhausted loop is
never rendered); and if the loop broke early the prompt fits the budget. -/
theorem promptShrinkGo_spec (tok : String → Nat) (limit : Nat)
    (render : List Char → String) :
    ∀ k fb, 0 < k →
      (promptShrinkGo tok limit render k fb).2 ≤ k ∧
      (promptShrinkGo tok limit render k fb).1
        = render (halveIter (min (promptShrinkGo tok limit render k fb).2 (k-1)) fb) ∧
      ((promptShrinkGo tok limit render k fb).2 < k →
        tok (promptShrinkGo tok limit render k fb).1 ≤ limit) := by
  intro k
  induction k with
  | zero => intro fb h; exact absurd h (by norm_num)
  | succ k ih =>
    intro fb _
    by_cases hbudget : tok (render fb) ≤ limit
    · refine ⟨?_, ?_, ?_⟩ <;> simp [promptShrinkGo, hbudget, halveIter]
    · cases k with
      | zero =>
        refine ⟨?_, ?_, ?_⟩ <;> simp [promptShrinkGo, hbudget, halveIter]
      | succ k' =>
        have ihh := ih (halveFeedback fb) (Nat.succ_pos k')
        have hres : promptShrinkGo tok limit render (k'+1+1) fb
            = ((promptShrinkGo tok limit render (k'+1) (halveFeedback fb)).1,
                (promptShrinkGo tok limit render (k'+1) (halveFeedback fb)).2 + 1) := by
          simp [promptShrinkGo, hbudget, Nat.succ_ne_zero]
        rw [hres]
        obtain ⟨ih1, ih2, ih3⟩ := ihh
        refine ⟨Nat.succ_le_succ ih1, ?_, ?_⟩
        · simp only [Nat.add_sub_cancel] at ih2 ⊢
          rw [Nat.succ_min_succ, halveIter_succ]
          exact ih2
        · intro hlt
          exact ih3 (Nat.lt_of_succ_lt_succ hlt)

/-- Claim C8: the halving loop shared by `FactorCodeEvaluator.evaluate` and
`FactorFinalDecisionEvaluator.evaluate` performs at most 10 halvings; the
prompt passed to the completion call is rendered from a tail suffix of the
original execution feedback (each halving keeps the second half); and only
an early break guarantees the budget — when the loop exhausts its 10
iterations the call is still issued with whatever prompt remains, even if
it is over budget. -/
theorem prompt_halving_bounds (tok : String → Nat) (limit : Nat)
    (render : List Char → String) (fb : List Char) :
    (promptShrink tok limit render fb).2 ≤ 10 ∧
    (promptShrink tok limit render fb).1
      = render (halveIter (min (promptShrink tok limit render fb).2 9) fb) ∧
    halveIter (min (promptShrink tok limit render fb).2 9) fb <:+ fb ∧
    ((promptShrink tok limit render fb).2 < 10 →
      tok (promptShrink tok limit render fb).1 ≤ limit) := by
  have h := promptShrinkGo_spec tok limit render 10 fb (by norm_num)
  exact ⟨h.1, h.2.1, halveIter_suffix _ fb, h.2.2⟩

/-- Witness for `prompt_halving_bounds` at a concrete token counter that is
always within budget: zero halvings happen and the rendered prompt fits. -/
theorem prompt_halving_bounds_witness :
    (promptShrink zeroTok 0 emptyRender []).2 < 10 ∧
      zeroTok (promptShrink zeroTok 0 emptyRender []).1 ≤ 0 :=
  ⟨by decide, (prompt_halving_bounds zeroTok 0 emptyRender []).2.2.2 (by decide)⟩

/-! ## Theorems about the per-candidate state machine -/

/-- Claim C5: when the evaluation reaches the value-check stage (no
knowledge-cache hit), a Pass verdict skips both the code critic and the
final adjudicator and sets the canned pass feedback; a Fail verdict runs
the code critic only and sets the canned fail feedback; an Indeterminate
verdict or a missing table runs both and takes the final decision and
feedback from the final adjudicator output. -/
theorem singleEvaluator_transitions (inp : CoderEvalInputs)
    (h1 : inp.implPresent = true)
    (h2 : coderKnowledgeSuccessHit inp = false)
    (h3 : coderKnowledgeFailedHit inp = false) :
    ((inp.genDf = true ∧ inp.valueDecision = some true) →
      (factorEvaluatorForCoderEvaluate inp).codeCriticRan = false ∧
      (factorEvaluatorForCoderEvaluate inp).finalAdjRan = false ∧
      (factorEvaluatorForCoderEvaluate inp).feedback.map
          FactorSingleFeedback.final_decision = some (some true) ∧
      (factorEvaluatorForCoderEvaluate inp).feedback.map
          FactorSingleFeedback.final_feedback = some (some passFinalMsg) ∧
      (factorEvaluatorForCoderEvaluate inp).feedback.map
          FactorSingleFeedback.code_feedback = some (some passCodeMsg)) ∧
    ((inp.genDf = true ∧ inp.valueDecision = some false) →
      (factorEvaluatorForCoderEvaluate inp).codeCriticRan = true ∧
      (factorEvaluatorForCoderEvaluate inp).finalAdjRan = false ∧
      (factorEvaluatorForCoderEvaluate inp).feedback.map
          FactorSingleFeedback.final_decision = some (some false) ∧
      (factorEvaluatorForCoderEvaluate inp).feedback.map
          FactorSingleFeedback.final_feedback = some (some failFinalMsg)) ∧
    ((inp.genDf = false ∨ inp.valueDecision = none) →
      (factorEvaluatorForCoderEvaluate inp).codeCriticRan = true ∧
      (factorEvaluatorForCoderEvaluate inp).finalAdjRan = true ∧
      (factorEvaluatorForCoderEvaluate inp).feedback.map
          FactorSingleFeedback.final_decision = some inp.finalDecision ∧
      (factorEvaluatorForCoderEvaluate inp).feedback.map
          FactorSingleFeedback.final_feedback = some inp.finalFb) := by
  have hmain : factorEvaluatorForCoderEvaluate inp = coderMainPath inp := by
    cases hk : inp.knowledge with
    | none => simp [factorEvaluatorForCoderEvaluate, h1, hk]
    | some qk =>
      simp only [coderKnowledgeSuccessHit, hk] at h2
      simp only [coderKnowledgeFailedHit, hk] at h3
      simp at h2 h3
      simp [factorEvaluatorForCoderEvaluate, h1, hk, h2, h3]
  rw [hmain]
  refine ⟨?_, ?_, ?_⟩
  · rintro ⟨hg, hd⟩
    simp [coderMainPath, hg, hd]
  · rintro ⟨hg, hd⟩
    simp [coderMainPath, hg, hd]
  · rintro (hg | hd)
    · simp [coderMainPath, hg]
    · by_cases hg : inp.genDf = false
      · simp [coderMainPath, hg]
      · have hg2 : inp.genDf = true := by
          revert hg
          cases inp.genDf <;> simp
        simp [coderMainPath, hg2, hd]

/-- Witness for `singleEvaluator_transitions` at a concrete Pass input. -/
theorem singleEvaluator_transitions_witness :
    (factorEvaluatorForCoderEvaluate inp5).codeCriticRan = false ∧
      (factorEvaluatorForCoderEvaluate inp5).finalAdjRan = false ∧
      (factorEvaluatorForCoderEvaluate inp5).feedback.map
          FactorSingleFeedback.final_decision = some (some true) ∧
      (factorEvaluatorForCoderEvaluate inp5).feedback.map
          FactorSingleFeedback.final_feedback = some (some passFinalMsg) ∧
      (factorEvaluatorForCoderEvaluate inp5).feedback.map
          FactorSingleFeedback.code_feedback = some (some passCodeMsg) :=
  (singleEvaluator_transitions inp5 rfl rfl rfl).1 ⟨rfl, rfl⟩

/-- Claim C6: a task marked as repeatedly failed (and not recorded as a
success) makes the evaluator return the canned all-failing feedback with no
stage run at all: the workspace is not executed and none of the evaluators
that reach the completion service are invoked. -/
theorem singleEvaluator_repeated_failure_short_circuit (inp : CoderEvalInputs)
    (h1 : inp.implPresent = true)
    (h2 : coderKnowledgeSuccessHit inp = false)
    (h3 : coderKnowledgeFailedHit inp = true) :
    factorEvaluatorForCoderEvaluate inp
      = ⟨some repeatedFailFeedback, false, false, false, false⟩ ∧
    repeatedFailFeedback.final_decision = some false := by
  refine ⟨?_, rfl⟩
  cases hk : inp.knowledge with
  | none => simp [coderKnowledgeFailedHit, hk] at h3
  | some qk =>
    simp only [coderKnowledgeSuccessHit, hk] at h2
    simp only [coderKnowledgeFailedHit, hk] at h3
    simp at h2 h3
    simp [factorEvaluatorForCoderEvaluate, h1, hk, h2, h3]

/-- Witness for `singleEvaluator_repeated_failure_short_circuit` at a
concrete repeatedly-failed task. -/
theorem singleEvaluator_repeated_failure_witness :
    factorEvaluatorForCoderEvaluate inp6
      = ⟨some repeatedFailFeedback, false, false, false, false⟩ :=
  (singleEvaluator_repeated_failure_short_circuit inp6 rfl rfl (by decide)).1
